import Mathlib

/-!
Verification of the go-toolkit publication parsers: the EPUB format
orchestrator (`Parser.Parse`, `parseNavigationData`, `parseEncryptionData`,
`parseDisplayOptions` from the `epub` package) and the image publication
assembler (`ImageParser.Parse`, `ImageParser.accepts` from
`pkg/parser/parser_image.go`).

External collaborators (the OPF grammar parser, the NCX / navigation-document
parsers, the encryption-XML parser, the URL resolver, the media-type registry
and the XML query engine) are taken as oracle parameters, mirroring the
source's package boundaries.  Go maps are modelled as functions to `Option`,
matching Go lookup semantics (a nil map and an empty map are observationally
identical).
-/

/-- A Go map, observed through lookups: `none` models a missing key. -/
def GoMap (α β : Type) : Type := α → Option β

/-- The empty Go map (also models a nil map, which reads as empty). -/
def GoMap.empty {α β : Type} : GoMap α β := fun _ => none

/-- Go map assignment `m[k] = v`. -/
def GoMap.insert {α β : Type} [DecidableEq α] (m : GoMap α β) (k : α) (v : β) :
    GoMap α β := fun q => if q = k then some v else m q

/-! ## Image publication assembler (`pkg/parser/parser_image.go`) -/

/-- `manifest.Link`: one addressable resource.  Only the fields the image
assembler touches are modelled; `href` stands for both `Href.String()` and
`URL(nil, nil).Path()` (the archive paths at play are plain relative paths). -/
structure Link where
  href : String
  mediaType : String
  title : String
  rels : List String
deriving DecidableEq, Repr

instance {ε α : Type} [DecidableEq ε] [DecidableEq α] : DecidableEq (Except ε α)
  | .error e, .error e' =>
      if h : e = e' then .isTrue (by rw [h]) else .isFalse (by simp [h])
  | .error _, .ok _ => .isFalse (by simp)
  | .ok _, .error _ => .isFalse (by simp)
  | .ok a, .ok a' =>
      if h : a = a' then .isTrue (by rw [h]) else .isFalse (by simp [h])

/-- The fetcher capability used by the image assembler: `Links()` enumerates
the archive entries or fails. -/
structure ImgFetcher where
  links : Except String (List Link)
deriving DecidableEq, Repr

/-- `mediatype.CBZ` identifier string. -/
def CBZ : String := "application/vnd.comicbook+zip"

/-- `mediatype.CBR` identifier string. -/
def CBR : String := "application/vnd.comicbook-rar"

/-- `manifest.WebpubManifestContext`. -/
def WebpubManifestContext : String := "https://readium.org/webpub-manifest/context.jsonld"

/-- `manifest.ProfileDivina`. -/
def ProfileDivina : String := "https://readium.org/webpub-manifest/profiles/divina"

/-- Go `filepath.Ext` scan: walk the path backwards, stop at a path
separator, and on a dot return that suffix.  The first argument accumulates
the characters already passed (in forward order); the second is the rest of
the path, reversed. -/
def extScan : List Char → List Char → Option (List Char)
  | _, [] => none
  | acc, c :: rest =>
      if c = '/' then none
      else if c = '.' then some (c :: acc)
      else extScan (c :: acc) rest

/-- Go `filepath.Ext`: the suffix beginning at the final dot in the final
element of the path; empty if there is none. -/
def filepathExt (path : String) : String :=
  match extScan [] path.data.reverse with
  | none => ""
  | some l => String.mk l

/-- `allowed_extensions_image`: the fixed allow-list of auxiliary metadata
extensions. -/
def allowed_extensions_image : List String := ["acbf", "xml", "txt", "json"]

/-- Go `strings.ToLower`, modelled as the character-wise lowercase map (the
same function as `String.toLower`, stated structurally so that concrete
instances evaluate). -/
def goToLower (path : String) : String :=
  String.mk (path.data.map Char.toLower)

/-- The extension key the acceptance test looks up:
`fext := filepath.Ext(strings.ToLower(path))`, with the leading dot removed
when `len(fext) > 1`. -/
def extKey (path : String) : String :=
  let fext := filepathExt (goToLower path)
  if fext.length > 1 then fext.drop 1 else fext

/-- `ImageParser.accepts`.  `isHiddenOrThumbs` models
`extensions.IsHiddenOrThumbs` and `isBitmap` models `MediaType.IsBitmap`,
both external to the verified sources. -/
def ImageParser.accepts (isHiddenOrThumbs isBitmap : String → Bool)
    (assetMediaType : String) (f : ImgFetcher) : Except String Bool :=
  if assetMediaType = CBZ ∨ assetMediaType = CBR then .ok true
  else
    match f.links with
    | .error e => .error e
    | .ok links =>
        .ok (links.all fun link =>
          isHiddenOrThumbs link.href || isBitmap link.mediaType ||
            allowed_extensions_image.contains (extKey link.href))

/-- The filter of `ImageParser.Parse`: drop hidden/system files and
non-bitmap resources. -/
def keepLink (isHiddenOrThumbs isBitmap : String → Bool) (link : Link) : Bool :=
  !(isHiddenOrThumbs link.href) && isBitmap link.mediaType

/-- Go string `<` as a structurally recursive boolean on character lists
(lexicographic; on the paths at play the byte order and the character order
agree). -/
def goStrLt : List Char → List Char → Bool
  | [], [] => false
  | [], _ :: _ => true
  | _ :: _, [] => false
  | a :: s, b :: t => if a = b then goStrLt s t else decide (a < b)

/-- The sort relation of `ImageParser.Parse`: nondecreasing by the href
string.  Go sorts with the comparator `Href.String() < Href.String()`; a
permutation is nondecreasing for that comparator exactly when it is sorted
for `hrefLE`. -/
def hrefLE (a b : Link) : Prop := goStrLt b.href.data a.href.data = false

/-- `goStrLt` decides the lexicographic strict order on character lists. -/
theorem goStrLt_iff_lex :
    ∀ s t : List Char, goStrLt s t = true ↔ List.Lex (· < ·) s t
  | [], [] => by simp [goStrLt]
  | [], _ :: _ => by simpa [goStrLt] using List.Lex.nil
  | _ :: _, [] => by simp [goStrLt]
  | a :: s, b :: t => by
      by_cases hab : a = b
      · subst hab
        simpa [goStrLt] using (goStrLt_iff_lex s t).trans List.Lex.cons_iff.symm
      · unfold goStrLt
        simp only [hab, if_false, decide_eq_true_eq]
        constructor
        · exact fun h => List.Lex.rel h
        · intro h
          cases h with
          | cons h => exact absurd rfl hab
          | rel h => exact h

/-- `hrefLE` agrees with the mathematical linear order on strings. -/
theorem hrefLE_iff (a b : Link) : hrefLE a b ↔ a.href ≤ b.href := by
  rw [String.le_iff_toList_le, ← not_lt]
  unfold hrefLE
  rw [← Bool.not_eq_true, goStrLt_iff_lex]
  exact Iff.rfl

instance : DecidableRel hrefLE := fun a b =>
  inferInstanceAs (Decidable (goStrLt b.href.data a.href.data = false))

instance : IsTotal Link hrefLE :=
  ⟨fun a b => (le_total a.href b.href).imp (hrefLE_iff a b).mpr (hrefLE_iff b a).mpr⟩

instance : IsTrans Link hrefLE :=
  ⟨fun a b c h h' =>
    (hrefLE_iff a c).mpr (le_trans ((hrefLE_iff a b).mp h) ((hrefLE_iff b c).mp h'))⟩

/-- `readingOrder[0].Rels = []string{"cover"}`: replace the first link's
relation list with exactly `["cover"]`. -/
def tagCover : List Link → List Link
  | [] => []
  | h :: t => { h with rels := ["cover"] } :: t

/-- The image publication manifest as assembled by `ImageParser.Parse`. -/
structure ImgManifest where
  context : List String
  title : String
  conformsTo : List String
  readingOrder : List Link
deriving DecidableEq, Repr

/-- The builder returned by `ImageParser.Parse` (service registration is out
of scope and omitted). -/
structure ImgBuilder where
  manifest : ImgManifest
  fetcher : ImgFetcher
deriving DecidableEq, Repr

/-- `ImageParser.Parse`.  `guessTitle` is the result of the external
`guessPublicationTitleFromFileStructure` collaborator and `assetName` is
`asset.Name()`.  `.ok none` models the Go `(nil, nil)` no-match result. -/
def ImageParser.Parse (isHiddenOrThumbs isBitmap : String → Bool)
    (guessTitle : String) (assetMediaType assetName : String)
    (f : ImgFetcher) : Except String (Option ImgBuilder) :=
  match ImageParser.accepts isHiddenOrThumbs isBitmap assetMediaType f with
  | .error e => .error e
  | .ok false => .ok none
  | .ok true =>
    match f.links with
    | .error e => .error e
    | .ok links =>
      let readingOrder := links.filter (keepLink isHiddenOrThumbs isBitmap)
      if readingOrder.length = 0 then .error "no bitmap found in the publication"
      else
        let sorted := readingOrder.insertionSort hrefLE
        let title := if guessTitle = "" then assetName else guessTitle
        .ok (some
          { manifest :=
              { context := [WebpubManifestContext]
                title := title
                conformsTo := [ProfileDivina]
                readingOrder := tagCover sorted }
            fetcher := f })

/-! ## EPUB format orchestrator (`src/unnamed/part_000`, package `epub`) -/

/-- `mediatype.EPUB` identifier string. -/
def EPUBMediaType : String := "application/epub+zip"

/-- `NamespaceOPF` (package constant, value from the EPUB standard). -/
def NamespaceOPF : String := "http://www.idpf.org/2007/opf"

/-- `NamespaceDC` (package constant, value from the EPUB standard). -/
def NamespaceDC : String := "http://purl.org/dc/elements/1.1/"

/-- `VocabularyDCTerms` (package constant, value from the EPUB standard). -/
def VocabularyDCTerms : String := "http://purl.org/dc/terms/"

/-- `NamespaceENC` (package constant, value from the EPUB standard). -/
def NamespaceENC : String := "http://www.w3.org/2001/04/xmlenc#"

/-- `NamespaceSIG` (package constant, value from the EPUB standard). -/
def NamespaceSIG : String := "http://www.w3.org/2000/09/xmldsig#"

/-- `NamespaceCOMP` (package constant, value from the EPUB standard). -/
def NamespaceCOMP : String := "http://www.idpf.org/2016/encryption#compression"

/-- `NamespaceNCX` (package constant, value from the EPUB standard). -/
def NamespaceNCX : String := "http://www.daisy.org/z3986/2005/ncx/"

/-- `NamespaceXHTML` (package constant, value from the EPUB standard). -/
def NamespaceXHTML : String := "http://www.w3.org/1999/xhtml"

/-- `NamespaceOPS` (package constant, value from the EPUB standard). -/
def NamespaceOPS : String := "http://www.idpf.org/2007/ops"

/-- `VocabularyItem` (package constant, value from the EPUB standard). -/
def VocabularyItem : String := "http://idpf.org/epub/vocab/package/item/#"

/-- An OPF manifest entry (`Item`). -/
structure Item where
  id : String
  href : String
  mediaType : String
  properties : List String
deriving DecidableEq, Repr

/-- The OPF spine reference; only the legacy table-of-contents id (`TOC`)
is consumed by the navigation resolver. -/
structure Spine where
  toc : String
deriving DecidableEq, Repr

/-- `PackageDocument`: the parsed package descriptor.  `EPUBVersion` is a Go
`float64`; the values at play (`2.0`, `3.0`, …) are exact, so it is modelled
as a rational. -/
structure PackageDocument where
  epubVersion : ℚ
  path : String
  manifest : List Item
  spine : Spine
deriving DecidableEq, Repr

/-- The fetcher capability the epub parser consumes:
`Get(Link{Href}).ReadAsXML(namespaces)`, keyed by the href and the
namespace-prefix binding table, returning a document of the abstract XML
type `X` or a fetch/parse error. -/
structure EpubFetcher (X : Type) where
  readAsXML : String → List (String × String) → Except String X

/-- A navigation link as produced by the external NCX / navigation-document
parsers; its contents are opaque to the navigation resolver. -/
structure MLink where
  href : String
deriving DecidableEq, Repr

/-- `map[string]manifest.LinkList`: the navigation map, keyed by role. -/
def NavMap : Type := GoMap String (List MLink)

/-- `manifest.Encryption` records are opaque to this core; they are produced
by the external `ParseEncryption` collaborator. -/
structure Encryption where
  scheme : String
deriving DecidableEq, Repr

/-- `map[url.URL]manifest.Encryption`, keyed by the resource URL string. -/
def EncMap : Type := GoMap String Encryption

/-- `map[string]string`: the display options. -/
def DispMap : Type := GoMap String String

/-- The fixed well-known path of the encryption descriptor. -/
def encryptionPath : String := "META-INF/encryption.xml"

/-- The namespace-prefix binding table for the encryption descriptor. -/
def encNamespaces : List (String × String) :=
  [(NamespaceENC, "enc"), (NamespaceSIG, "ds"), (NamespaceCOMP, "comp")]

/-- `parseEncryptionData`: fetch `META-INF/encryption.xml`; absence or a
parse failure degrades to the empty map (Go returns the nil named result),
otherwise the external `ParseEncryption` output is returned unchanged. -/
def parseEncryptionData {X : Type} (parseEncryption : X → EncMap)
    (f : EpubFetcher X) : EncMap :=
  match f.readAsXML encryptionPath encNamespaces with
  | .error _ => GoMap.empty
  | .ok n => parseEncryption n

/-- The tail of the legacy strategy: resolve the selected item's href
against the descriptor path, fetch it as NCX and hand it to the external
`ParseNCX`; a fetch/parse failure degrades to the empty map. -/
def ncxFetchParse {X : Type} (parseNCX : X → String → NavMap)
    (resolve : String → String → String) (packageDocument : PackageDocument)
    (f : EpubFetcher X) (item : Item) : NavMap :=
  let ncxPath := resolve packageDocument.path item.href
  match f.readAsXML ncxPath [(NamespaceNCX, "ncx")] with
  | .error _ => GoMap.empty
  | .ok n => parseNCX n ncxPath

/-- The tail of the modern strategy: resolve the selected item's href, fetch
it as a navigation document and hand it to the external `ParseNavDoc`; a
fetch/parse failure degrades to the empty map. -/
def navDocFetchParse {X : Type} (parseNavDoc : X → String → NavMap)
    (resolve : String → String → String) (packageDocument : PackageDocument)
    (f : EpubFetcher X) (item : Item) : NavMap :=
  let navPath := resolve packageDocument.path item.href
  match f.readAsXML navPath [(NamespaceXHTML, "html"), (NamespaceOPS, "epub")] with
  | .error _ => GoMap.empty
  | .ok n => parseNavDoc n navPath

/-- `parseNavigationData`.  `parseNCX`, `parseNavDoc`, `resolve` (URL
resolution) and `ncxContains` (`mediatype.NCX.Contains`) are external
collaborators. -/
def parseNavigationData {X : Type} (parseNCX parseNavDoc : X → String → NavMap)
    (resolve : String → String → String) (ncxContains : String → Bool)
    (packageDocument : PackageDocument) (f : EpubFetcher X) : NavMap :=
  if packageDocument.epubVersion < 3 then
    let ncxItem : Option Item :=
      if packageDocument.spine.toc ≠ "" then
        packageDocument.manifest.find? (fun v => v.id == packageDocument.spine.toc)
      else
        packageDocument.manifest.find? (fun v => ncxContains v.mediaType)
    match ncxItem with
    | none => GoMap.empty
    | some item => ncxFetchParse parseNCX resolve packageDocument f item
  else
    match packageDocument.manifest.find?
        (fun v => v.properties.contains (VocabularyItem ++ "nav")) with
    | none => GoMap.empty
    | some item => navDocFetchParse parseNavDoc resolve packageDocument f item

/-- Modelled from the claim's wording of the legacy selection rule: prefer
the manifest entry whose id equals the spine's declared table-of-contents
id, and *otherwise* (also when a declared id matches no entry) fall back to
the first entry whose media type is the legacy NCX type.  To be compared
with `parseNavigationData`, whose fallback fires only when no
table-of-contents id is declared at all. -/
def parseNavigationDataClaim {X : Type} (parseNCX parseNavDoc : X → String → NavMap)
    (resolve : String → String → String) (ncxContains : String → Bool)
    (packageDocument : PackageDocument) (f : EpubFetcher X) : NavMap :=
  if packageDocument.epubVersion < 3 then
    let preferred : Option Item :=
      if packageDocument.spine.toc ≠ "" then
        packageDocument.manifest.find? (fun v => v.id == packageDocument.spine.toc)
      else none
    let ncxItem : Option Item :=
      preferred.orElse
        (fun _ => packageDocument.manifest.find? (fun v => ncxContains v.mediaType))
    match ncxItem with
    | none => GoMap.empty
    | some item => ncxFetchParse parseNCX resolve packageDocument f item
  else
    match packageDocument.manifest.find?
        (fun v => v.properties.contains (VocabularyItem ++ "nav")) with
    | none => GoMap.empty
    | some item => navDocFetchParse parseNavDoc resolve packageDocument f item

/-- The primary (Apple) vendor display-options well-known path. -/
def appleDisplayOptionsPath : String := "META-INF/com.apple.ibooks.display-options.xml"

/-- The secondary (Kobo) vendor display-options well-known path. -/
def koboDisplayOptionsPath : String := "META-INF/com.kobobooks.display-options.xml"

/-- An `<option>` element of a display-options document, as seen through the
XML query engine: the `name` attribute (empty when absent) and the inner
text. -/
structure DispOption where
  name : String
  value : String
deriving DecidableEq, Repr

/-- The extraction half of `parseDisplayOptions`: the options of the
`//platform` selection, skipping any option with an empty name or value. -/
def extractDisplayOptions {X : Type} (selectPlatform : X → Option (List DispOption))
    (doc : X) : DispMap :=
  match selectPlatform doc with
  | none => GoMap.empty
  | some options =>
      options.foldl
        (fun ret o =>
          if o.name ≠ "" ∧ o.value ≠ "" then ret.insert o.name o.value else ret)
        GoMap.empty

/-- `parseDisplayOptions`: try the Apple path, then the Kobo path; the first
document that fetches and parses wins, and if neither does the map stays
empty.  `selectPlatform` models the XML query `SelectElement("//platform")`
with its `option` children. -/
def parseDisplayOptions {X : Type} (selectPlatform : X → Option (List DispOption))
    (f : EpubFetcher X) : DispMap :=
  match f.readAsXML appleDisplayOptionsPath [] with
  | .ok doc => extractDisplayOptions selectPlatform doc
  | .error _ =>
    match f.readAsXML koboDisplayOptionsPath [] with
    | .ok doc => extractDisplayOptions selectPlatform doc
    | .error _ => GoMap.empty

/-- The errors `Parser.Parse` can surface, separating Go's bare `return nil,
err` from `errors.Wrap(err, context)`. -/
inductive EpubError where
  | rootFile (e : String)
  | xmlRead (e : String)
  | wrap (context : String) (e : String)
deriving DecidableEq, Repr

/-- The slice of `manifest.Manifest` metadata the orchestrator inspects. -/
structure PubMetadata where
  identifier : String
deriving DecidableEq, Repr

/-- The manifest produced by the external `PublicationFactory.Create`. -/
structure PubManifest where
  metadata : PubMetadata
deriving DecidableEq, Repr

/-- The resource-access capability handed to the builder: either the base
fetcher unchanged, or `fetcher.NewTransformingFetcher(f,
NewDeobfuscator(identifier).Transform)`, kept symbolic because the
deobfuscation transform is an external collaborator. -/
inductive WFetcher (X : Type) where
  | base (f : EpubFetcher X)
  | transforming (f : EpubFetcher X) (identifier : String)

/-- The builder returned by `Parser.Parse` (service registration is out of
scope and omitted). -/
structure PubBuilder (X : Type) where
  manifest : PubManifest
  ffetcher : WFetcher X

/-- The external collaborators `Parser.Parse` consumes: container-registry
discovery (`GetRootFilePath`), the OPF grammar parser
(`ParsePackageDocument`), the NCX and navigation-document parsers, URL
resolution, the media-type registry test for NCX, the encryption-XML parser
(`ParseEncryption`), the XML query for the display-options platform section,
and the publication factory (`PublicationFactory.Create`, receiving the
fallback title, the package document and the three per-concern maps). -/
structure EpubCollab (X : Type) where
  getRootFilePath : EpubFetcher X → Except String String
  parsePackageDocument : X → String → Except String PackageDocument
  parseNCX : X → String → NavMap
  parseNavDoc : X → String → NavMap
  resolve : String → String → String
  ncxContains : String → Bool
  parseEncryption : X → EncMap
  selectPlatform : X → Option (List DispOption)
  create : String → PackageDocument → NavMap → EncMap → DispMap → PubManifest

/-- The fixed namespace-prefix binding table for the package descriptor. -/
def opfNamespaces : List (String × String) :=
  [(NamespaceOPF, "opf"), (NamespaceDC, "dc"), (VocabularyDCTerms, "dcterms"),
   ("http://www.idpf.org/2013/rendition", "rendition")]

/-- `Parser.Parse` (the format orchestrator).  `.ok none` models the Go
`(nil, nil)` no-match result. -/
def Parser.Parse {X : Type} (c : EpubCollab X) (assetMediaType assetName : String)
    (f : EpubFetcher X) : Except EpubError (Option (PubBuilder X)) :=
  if assetMediaType ≠ EPUBMediaType then .ok none
  else
    match c.getRootFilePath f with
    | .error e => .error (.rootFile e)
    | .ok opfPath =>
      match f.readAsXML opfPath opfNamespaces with
      | .error errx => .error (.xmlRead errx)
      | .ok opfXmlDocument =>
        match c.parsePackageDocument opfXmlDocument opfPath with
        | .error e => .error (.wrap "invalid OPF file" e)
        | .ok packageDocument =>
          let manifest := c.create assetName packageDocument
            (parseNavigationData c.parseNCX c.parseNavDoc c.resolve c.ncxContains
              packageDocument f)
            (parseEncryptionData c.parseEncryption f)
            (parseDisplayOptions c.selectPlatform f)
          let ffetcher : WFetcher X :=
            if manifest.metadata.identifier ≠ "" then
              .transforming f manifest.metadata.identifier
            else .base f
          .ok (some { manifest := manifest, ffetcher := ffetcher })

/-! ## Concrete fixtures -/

/-- A fetcher over trivial documents whose every fetch succeeds. -/
def okFetcher : EpubFetcher Unit := ⟨fun _ _ => .ok ()⟩

/-- A fetcher whose every fetch fails. -/
def failFetcher : EpubFetcher Unit := ⟨fun _ _ => .error "missing"⟩

/-- Slash path resolution used in fixtures. -/
def resolveSlash (base href : String) : String := base ++ "/" ++ href

/-- The NCX media-type test used in fixtures. -/
def isNCXType (mt : String) : Bool := mt == "application/x-dtbncx+xml"

/-- A one-role navigation map fixture. -/
def tocNavMap : NavMap := GoMap.insert GoMap.empty "toc" [{ href := "ch1.html" }]

/-- An NCX-parser oracle returning `tocNavMap` for every document. -/
def ncxOracle : Unit → String → NavMap := fun _ _ => tocNavMap

/-- A navigation-document oracle returning the empty map. -/
def navZeroOracle : Unit → String → NavMap := fun _ _ => GoMap.empty

/-- Fixture: a version-2 descriptor declaring a table-of-contents id that
matches no manifest entry while an NCX-media-typed entry is present. -/
def pdTocMismatch : PackageDocument :=
  { epubVersion := 2
    path := "OEBPS/package.opf"
    manifest := [{ id := "item1", href := "toc.ncx",
                   mediaType := "application/x-dtbncx+xml", properties := [] }]
    spine := { toc := "missing-id" } }

/-- Fixture: a version-3 descriptor carrying both a nav-property entry and
an NCX-media-typed entry. -/
def pdV3 : PackageDocument :=
  { epubVersion := 3
    path := "OEBPS/package.opf"
    manifest := [{ id := "ncx", href := "toc.ncx",
                   mediaType := "application/x-dtbncx+xml", properties := [] },
                 { id := "nav", href := "nav.xhtml",
                   mediaType := "application/xhtml+xml",
                   properties := [VocabularyItem ++ "nav"] }]
    spine := { toc := "ncx" } }

/-- Fixture: a version-2 descriptor whose declared table-of-contents id
matches a manifest entry. -/
def pdV2 : PackageDocument :=
  { epubVersion := 2
    path := "OEBPS/package.opf"
    manifest := [{ id := "ncx", href := "toc.ncx",
                   mediaType := "application/x-dtbncx+xml", properties := [] }]
    spine := { toc := "ncx" } }

/-- A collaborator bundle over trivial documents; `identifier` is the
publication identifier the factory fixture reports. -/
def unitCollab (identifier : String) : EpubCollab Unit :=
  { getRootFilePath := fun _ => .ok "OEBPS/package.opf"
    parsePackageDocument := fun _ _ => .ok pdV3
    parseNCX := ncxOracle
    parseNavDoc := navZeroOracle
    resolve := resolveSlash
    ncxContains := isNCXType
    parseEncryption := fun _ => GoMap.empty
    selectPlatform := fun _ => none
    create := fun _ _ _ _ _ => { metadata := { identifier := identifier } } }

/-- Whether an orchestrator error is an `errors.Wrap`-style wrapped error. -/
def EpubError.isWrapped : EpubError → Bool
  | .wrap _ _ => true
  | _ => false

/-- The XML document type of the display-options fixtures: the platform
selection itself, so that the query oracle is the identity. -/
def DispDoc : Type := Option (List DispOption)

/-- Fixture: only the secondary (Kobo) vendor document resolves, holding one
`fixed-layout` option. -/
def koboOnlyFetcher : EpubFetcher DispDoc :=
  ⟨fun path _ =>
    if path = koboDisplayOptionsPath then
      .ok (some [{ name := "fixed-layout", value := "true" }])
    else .error "missing"⟩

/-- Fixture: the secondary vendor document carries an empty-name and an
empty-value option alongside a real one. -/
def koboMixedFetcher : EpubFetcher DispDoc :=
  ⟨fun path _ =>
    if path = koboDisplayOptionsPath then
      .ok (some [{ name := "", value := "x" },
                 { name := "fixed-layout", value := "true" },
                 { name := "y", value := "" }])
    else .error "missing"⟩

/-- A display-options fetcher whose every fetch fails. -/
def failDispFetcher : EpubFetcher DispDoc := ⟨fun _ _ => .error "missing"⟩

/-- Hidden/system-file test fixture: nothing is hidden. -/
def noHidden : String → Bool := fun _ => false

/-- Bitmap media-type test fixture. -/
def pngJpeg : String → Bool := fun mt => mt == "image/png" || mt == "image/jpeg"

/-- Fixture: an archive holding exactly the bitmaps b.jpg, a.png, c.png. -/
def threeBitmapFetcher : ImgFetcher :=
  ⟨.ok [{ href := "b.jpg", mediaType := "image/jpeg", title := "", rels := [] },
        { href := "a.png", mediaType := "image/png", title := "", rels := [] },
        { href := "c.png", mediaType := "image/png", title := "", rels := [] }]⟩

/-- Fixture: one bitmap next to an `.exe`. -/
def exeFetcher : ImgFetcher :=
  ⟨.ok [{ href := "page1.png", mediaType := "image/png", title := "", rels := [] },
        { href := "evil.exe", mediaType := "application/octet-stream",
          title := "", rels := [] }]⟩

/-- Fixture: an archive holding only a `metadata.xml`. -/
def xmlOnlyFetcher : ImgFetcher :=
  ⟨.ok [{ href := "metadata.xml", mediaType := "text/xml", title := "", rels := [] }]⟩

/-- Fixture: bitmaps that already carry relation tags and titles. -/
def relsFetcher : ImgFetcher :=
  ⟨.ok [{ href := "b.png", mediaType := "image/png", title := "U", rels := ["x"] },
        { href := "a.png", mediaType := "image/png", title := "T",
          rels := ["foo", "bar"] }]⟩

/-- Fixture: a version-3 descriptor with no nav-property entry. -/
def pdV3NoNav : PackageDocument :=
  { epubVersion := 3
    path := "OEBPS/package.opf"
    manifest := [{ id := "ncx", href := "toc.ncx",
                   mediaType := "application/x-dtbncx+xml", properties := [] }]
    spine := { toc := "" } }

/-- A collaborator bundle whose OPF grammar parser rejects every document. -/
def badOpfCollab : EpubCollab Unit :=
  { unitCollab "pub-id" with parsePackageDocument := fun _ _ => .error "bad opf" }

/-- An encryption-parser oracle reporting one encrypted resource. -/
def encOracle : Unit → EncMap :=
  fun _ => GoMap.insert GoMap.empty "fonts/font.otf" { scheme := "fontIDPF" }

/-- The builder the orchestrator fixtures produce for an empty identifier. -/
def pbEmpty : PubBuilder Unit :=
  { manifest := { metadata := { identifier := "" } }, ffetcher := .base okFetcher }

/-- The builder the orchestrator fixtures produce for identifier `pub-id`. -/
def pbId : PubBuilder Unit :=
  { manifest := { metadata := { identifier := "pub-id" } }
    ffetcher := .transforming okFetcher "pub-id" }

/-- Fixture: both vendor display-options documents resolve, with different
contents, so that the Apple one must win. -/
def appleFirstFetcher : EpubFetcher DispDoc :=
  ⟨fun path _ =>
    if path = appleDisplayOptionsPath then
      .ok (some [{ name := "specified-fonts", value := "true" }])
    else .ok (some [{ name := "other", value := "v" }])⟩

/-- The builder the image assembler produces on `threeBitmapFetcher`. -/
def threeBuilder : ImgBuilder :=
  { manifest :=
      { context := [WebpubManifestContext]
        title := "book"
        conformsTo := [ProfileDivina]
        readingOrder :=
          [{ href := "a.png", mediaType := "image/png", title := "", rels := ["cover"] },
           { href := "b.jpg", mediaType := "image/jpeg", title := "", rels := [] },
           { href := "c.png", mediaType := "image/png", title := "", rels := [] }] }
    fetcher := threeBitmapFetcher }

/-- The builder the image assembler produces on `relsFetcher`: the first
sorted link's prior relations are replaced by exactly ["cover"] while its
other fields and the second link are untouched. -/
def relsBuilder : ImgBuilder :=
  { manifest :=
      { context := [WebpubManifestContext]
        title := "book"
        conformsTo := [ProfileDivina]
        readingOrder :=
          [{ href := "a.png", mediaType := "image/png", title := "T", rels := ["cover"] },
           { href := "b.png", mediaType := "image/png", title := "U", rels := ["x"] }] }
    fetcher := relsFetcher }

/-! ## Theorems -/

/-- C1: navigation-map construction is strategy-exclusive.  For a descriptor
with version ≥ 3.0 the result of `parseNavigationData` is independent of the
legacy-index collaborators (`ParseNCX` and the NCX media-type test), even
when an NCX-media-typed manifest entry is present; for version < 3.0 it is
independent of the modern navigation-document collaborator
(`ParseNavDoc`). -/
theorem nav_strategy_exclusive {X : Type}
    (pN pN' pD pD' : X → String → NavMap) (res : String → String → String)
    (nc nc' : String → Bool) (pd : PackageDocument) (f : EpubFetcher X) :
    (3 ≤ pd.epubVersion →
      parseNavigationData pN pD res nc pd f
        = parseNavigationData pN' pD res nc' pd f)
    ∧ (pd.epubVersion < 3 →
      parseNavigationData pN pD res nc pd f
        = parseNavigationData pN pD' res nc pd f) := by
  constructor
  · intro h
    have h3 : ¬ pd.epubVersion < 3 := not_lt.mpr h
    simp [parseNavigationData, h3]
  · intro h
    simp [parseNavigationData, h]

/-- Witness for C1 at version-3 and version-2 descriptors, both holding an
NCX-media-typed manifest entry. -/
theorem nav_strategy_exclusive_witness :
    (parseNavigationData ncxOracle navZeroOracle resolveSlash isNCXType pdV3 okFetcher
      = parseNavigationData navZeroOracle navZeroOracle resolveSlash
          (fun _ => true) pdV3 okFetcher)
    ∧ (parseNavigationData ncxOracle navZeroOracle resolveSlash isNCXType pdV2 okFetcher
      = parseNavigationData ncxOracle ncxOracle resolveSlash isNCXType pdV2 okFetcher) :=
  ⟨(nav_strategy_exclusive ncxOracle navZeroOracle navZeroOracle navZeroOracle
      resolveSlash isNCXType (fun _ => true) pdV3 okFetcher).1 (by norm_num [pdV3]),
   (nav_strategy_exclusive ncxOracle ncxOracle navZeroOracle ncxOracle
      resolveSlash isNCXType isNCXType pdV2 okFetcher).2 (by norm_num [pdV2])⟩

/-- C2 is refuted: on a version-2 descriptor whose declared
table-of-contents id matches no manifest entry, the source takes no
media-type fallback and returns the empty map (here: no "toc" role), while
the claim's selection rule falls back to the NCX-media-typed entry and
yields the parsed navigation map. -/
theorem legacy_fallback_counterexample :
    parseNavigationData ncxOracle navZeroOracle resolveSlash isNCXType
        pdTocMismatch okFetcher "toc" = none
    ∧ parseNavigationDataClaim ncxOracle navZeroOracle resolveSlash isNCXType
        pdTocMismatch okFetcher "toc" = some [{ href := "ch1.html" }] := by
  constructor <;> rfl

/-- C2 (amended): for a descriptor with version < 3.0, when the spine
declares a table-of-contents id the resolver selects solely by that id —
returning the empty map when it matches nothing, with no media-type
fallback — and it searches for the first NCX-media-typed entry only when no
table-of-contents id is declared; a selected entry is resolved, fetched and
parsed by the legacy collaborator. -/
theorem legacy_selection {X : Type} (pN pD : X → String → NavMap)
    (res : String → String → String) (nc : String → Bool)
    (pd : PackageDocument) (f : EpubFetcher X) (hv : pd.epubVersion < 3) :
    (pd.spine.toc ≠ "" →
       parseNavigationData pN pD res nc pd f
         = match pd.manifest.find? (fun v => v.id == pd.spine.toc) with
           | none => GoMap.empty
           | some item => ncxFetchParse pN res pd f item)
    ∧ (pd.spine.toc = "" →
       parseNavigationData pN pD res nc pd f
         = match pd.manifest.find? (fun v => nc v.mediaType) with
           | none => GoMap.empty
           | some item => ncxFetchParse pN res pd f item)
    ∧ (pd.spine.toc ≠ "" →
       pd.manifest.find? (fun v => v.id == pd.spine.toc) = none →
       parseNavigationData pN pD res nc pd f = GoMap.empty) := by
  refine ⟨fun h => ?_, fun h => ?_, fun h hn => ?_⟩
  · simp [parseNavigationData, hv, h]
  · simp [parseNavigationData, hv, h]
  · simp [parseNavigationData, hv, h, hn]

/-- Witness for the amended C2: the mismatching declared id yields the empty
map although an NCX-media-typed entry is present. -/
theorem legacy_selection_witness :
    parseNavigationData ncxOracle navZeroOracle resolveSlash isNCXType
      pdTocMismatch okFetcher = GoMap.empty :=
  (legacy_selection ncxOracle navZeroOracle resolveSlash isNCXType
      pdTocMismatch okFetcher (by norm_num [pdTocMismatch])).2.2
    (by decide) (by decide)

/-- C4: the three soft concerns degrade independently and never fail the
parse.  With every fetch failing, navigation, encryption and display options
all come back as empty maps rather than errors; a missing navigation
resource (nothing selected) also yields the empty map in either strategy;
and once the descriptor pipeline succeeds the orchestrator returns a builder
for any fetcher, whatever its behaviour on every other resource. -/
theorem soft_concerns_degrade {X : Type} (c : EpubCollab X) (assetName : String)
    (pN pD : X → String → NavMap) (res : String → String → String)
    (nc : String → Bool) (pE : X → EncMap) (sp : X → Option (List DispOption))
    (pd : PackageDocument) (f g f₂ : EpubFetcher X)
    (ha : ∀ path ns, ∃ e, f.readAsXML path ns = .error e) :
    parseNavigationData pN pD res nc pd f = GoMap.empty
    ∧ parseEncryptionData pE f = GoMap.empty
    ∧ parseDisplayOptions sp f = GoMap.empty
    ∧ (pd.epubVersion < 3 →
        (if pd.spine.toc ≠ "" then
            pd.manifest.find? (fun v => v.id == pd.spine.toc)
          else pd.manifest.find? (fun v => nc v.mediaType)) = none →
        parseNavigationData pN pD res nc pd f₂ = GoMap.empty)
    ∧ (¬ pd.epubVersion < 3 →
        pd.manifest.find? (fun v => v.properties.contains (VocabularyItem ++ "nav"))
          = none →
        parseNavigationData pN pD res nc pd f₂ = GoMap.empty)
    ∧ (∀ (amt opfPath : String) (x : X) (pdoc : PackageDocument),
        amt = EPUBMediaType →
        c.getRootFilePath g = .ok opfPath →
        g.readAsXML opfPath opfNamespaces = .ok x →
        c.parsePackageDocument x opfPath = .ok pdoc →
        ∃ b, Parser.Parse c amt assetName g = .ok (some b)) := by
  have hncx : ∀ item, ncxFetchParse pN res pd f item = GoMap.empty := by
    intro item
    obtain ⟨e, he⟩ := ha (res pd.path item.href) [(NamespaceNCX, "ncx")]
    simp [ncxFetchParse, he]
  have hnav : ∀ item, navDocFetchParse pD res pd f item = GoMap.empty := by
    intro item
    obtain ⟨e, he⟩ :=
      ha (res pd.path item.href) [(NamespaceXHTML, "html"), (NamespaceOPS, "epub")]
    simp [navDocFetchParse, he]
  refine ⟨?_, ?_, ?_, ?_, ?_, ?_⟩
  · rw [parseNavigationData]
    split
    · split
      · rcases hI : pd.manifest.find? (fun v => v.id == pd.spine.toc) with _ | item
        · rw [hI]
        · rw [hI]
          exact hncx item
      · rcases hI : pd.manifest.find? (fun v => nc v.mediaType) with _ | item
        · rw [hI]
        · rw [hI]
          exact hncx item
    · rcases hI : pd.manifest.find?
          (fun v => v.properties.contains (VocabularyItem ++ "nav")) with _ | item
      · rw [hI]
      · rw [hI]
        exact hnav item
  · obtain ⟨e, he⟩ := ha encryptionPath encNamespaces
    simp [parseEncryptionData, he]
  · obtain ⟨e1, he1⟩ := ha appleDisplayOptionsPath []
    obtain ⟨e2, he2⟩ := ha koboDisplayOptionsPath []
    simp [parseDisplayOptions, he1, he2]
  · intro hv hsel
    rw [parseNavigationData, if_pos hv, hsel]
  · intro hv hsel
    rw [parseNavigationData, if_neg hv, hsel]
  · intro amt opfPath x pdoc hmt hroot hopf hpd
    subst hmt
    rw [Parser.Parse, if_neg (by simp), hroot]
    simp only [hopf, hpd]
    exact ⟨_, rfl⟩

/-- Witness for C4: all three maps are empty on an all-failing fetcher, a
missing navigation resource is harmless in both strategies, and the
orchestrator still succeeds on a fetcher that can only serve the package
descriptor. -/
theorem soft_concerns_degrade_witness :
    parseNavigationData ncxOracle navZeroOracle resolveSlash isNCXType pdV2 failFetcher
      = GoMap.empty
    ∧ parseEncryptionData encOracle failFetcher = GoMap.empty
    ∧ parseDisplayOptions (fun _ => none) failFetcher = GoMap.empty
    ∧ parseNavigationData ncxOracle navZeroOracle resolveSlash isNCXType
        pdTocMismatch okFetcher = GoMap.empty
    ∧ parseNavigationData ncxOracle navZeroOracle resolveSlash isNCXType
        pdV3NoNav okFetcher = GoMap.empty
    ∧ ∃ b, Parser.Parse (unitCollab "pub-id") EPUBMediaType "book" okFetcher
        = .ok (some b) := by
  have H := soft_concerns_degrade (unitCollab "pub-id") "book" ncxOracle navZeroOracle
    resolveSlash isNCXType encOracle (fun _ => none) pdV2 failFetcher okFetcher okFetcher
    (fun _ _ => ⟨"missing", rfl⟩)
  have H2 := soft_concerns_degrade (unitCollab "pub-id") "book" ncxOracle navZeroOracle
    resolveSlash isNCXType encOracle (fun _ => none) pdTocMismatch failFetcher okFetcher
    okFetcher (fun _ _ => ⟨"missing", rfl⟩)
  have H3 := soft_concerns_degrade (unitCollab "pub-id") "book" ncxOracle navZeroOracle
    resolveSlash isNCXType encOracle (fun _ => none) pdV3NoNav failFetcher okFetcher
    okFetcher (fun _ _ => ⟨"missing", rfl⟩)
  refine ⟨H.1, H.2.1, H.2.2.1, ?_, ?_, ?_⟩
  · exact H2.2.2.2.1 (by norm_num [pdTocMismatch]) (by decide)
  · exact H3.2.2.2.2.1 (by norm_num [pdV3NoNav]) (by decide)
  · exact H.2.2.2.2.2 EPUBMediaType "OEBPS/package.opf" () pdV3 rfl rfl rfl rfl

/-- C5: the fetcher handed to the builder is the deobfuscation-transforming
fetcher keyed by the manifest identifier iff that identifier is non-empty,
and is identically the base fetcher when it is empty. -/
theorem transform_iff_identifier {X : Type} (c : EpubCollab X)
    (assetName amt opfPath : String) (f : EpubFetcher X) (x : X)
    (pdoc : PackageDocument) (b : PubBuilder X)
    (hmt : amt = EPUBMediaType)
    (hroot : c.getRootFilePath f = .ok opfPath)
    (hopf : f.readAsXML opfPath opfNamespaces = .ok x)
    (hpd : c.parsePackageDocument x opfPath = .ok pdoc)
    (hb : Parser.Parse c amt assetName f = .ok (some b)) :
    (b.manifest.metadata.identifier = "" → b.ffetcher = .base f)
    ∧ (b.manifest.metadata.identifier ≠ "" →
        b.ffetcher = .transforming f b.manifest.metadata.identifier) := by
  subst hmt
  rw [Parser.Parse, if_neg (by simp), hroot] at hb
  simp only [hopf, hpd] at hb
  simp only [Except.ok.injEq, Option.some.injEq] at hb
  subst hb
  constructor
  · intro hid
    simp only at hid ⊢
    simp [hid]
  · intro hid
    simp only at hid ⊢
    simp [hid]

/-- Witness for C5 on both sides of the identifier test. -/
theorem transform_iff_identifier_witness :
    pbEmpty.ffetcher = .base okFetcher
    ∧ pbId.ffetcher = .transforming okFetcher "pub-id" :=
  ⟨(transform_iff_identifier (unitCollab "") "book" EPUBMediaType "OEBPS/package.opf"
      okFetcher () pdV3 pbEmpty rfl rfl rfl rfl rfl).1 rfl,
   (transform_iff_identifier (unitCollab "pub-id") "book" EPUBMediaType
      "OEBPS/package.opf" okFetcher () pdV3 pbId rfl rfl rfl rfl rfl).2 (by decide)⟩

/-- C6 is refuted: a failing package-descriptor fetch surfaces as a bare,
unwrapped XML-read error — not as an error wrapped with the context
"invalid package descriptor" (nor any other context). -/
theorem opf_wrap_counterexample :
    Parser.Parse (unitCollab "pub-id") EPUBMediaType "book" failFetcher
      = .error (.xmlRead "missing")
    ∧ (EpubError.xmlRead "missing").isWrapped = false := by
  constructor <;> rfl

/-- C6 (amended): a failure to fetch or to parse the package descriptor is a
hard error terminating the parse; the package-document parse failure is
wrapped with the context "invalid OPF file", while the XML-read failure
propagates unwrapped. -/
theorem opf_failures_hard {X : Type} (c : EpubCollab X)
    (assetName amt opfPath : String) (f : EpubFetcher X)
    (hmt : amt = EPUBMediaType)
    (hroot : c.getRootFilePath f = .ok opfPath) :
    (∀ e, f.readAsXML opfPath opfNamespaces = .error e →
      Parser.Parse c amt assetName f = .error (.xmlRead e))
    ∧ (∀ x e, f.readAsXML opfPath opfNamespaces = .ok x →
      c.parsePackageDocument x opfPath = .error e →
      Parser.Parse c amt assetName f = .error (.wrap "invalid OPF file" e)) := by
  subst hmt
  constructor
  · intro e he
    rw [Parser.Parse, if_neg (by simp), hroot]
    simp only [he]
  · intro x e hx he
    rw [Parser.Parse, if_neg (by simp), hroot]
    simp only [hx, he]

/-- Witness for the amended C6: a failing fetch propagates bare, a rejected
package document comes back wrapped with "invalid OPF file". -/
theorem opf_failures_hard_witness :
    Parser.Parse (unitCollab "pub-id") EPUBMediaType "book" failFetcher
      = .error (.xmlRead "missing")
    ∧ Parser.Parse badOpfCollab EPUBMediaType "book" okFetcher
      = .error (.wrap "invalid OPF file" "bad opf") :=
  ⟨(opf_failures_hard (unitCollab "pub-id") "book" EPUBMediaType "OEBPS/package.opf"
      failFetcher rfl rfl).1 "missing" rfl,
   (opf_failures_hard badOpfCollab "book" EPUBMediaType "OEBPS/package.opf"
      okFetcher rfl rfl).2 () "bad opf" rfl rfl⟩

/-- C9: the display-options resolver tries the Apple path first and the Kobo
path second; the first document that fetches and parses wins (when the
primary resolves, the result depends only on that document, so the secondary
is never consulted); when neither resolves the map is empty; a resolved
document contributes exactly the platform-section options with non-empty
names and values — on the Kobo-only fixture exactly the fixed-layout
pair. -/
theorem display_options_resolution {X : Type}
    (sp : X → Option (List DispOption)) (f : EpubFetcher X) :
    (∀ doc, f.readAsXML appleDisplayOptionsPath [] = .ok doc →
        parseDisplayOptions sp f = extractDisplayOptions sp doc)
    ∧ (∀ e doc, f.readAsXML appleDisplayOptionsPath [] = .error e →
        f.readAsXML koboDisplayOptionsPath [] = .ok doc →
        parseDisplayOptions sp f = extractDisplayOptions sp doc)
    ∧ (∀ e e', f.readAsXML appleDisplayOptionsPath [] = .error e →
        f.readAsXML koboDisplayOptionsPath [] = .error e' →
        parseDisplayOptions sp f = GoMap.empty)
    ∧ parseDisplayOptions id koboOnlyFetcher
        = GoMap.insert GoMap.empty "fixed-layout" "true"
    ∧ parseDisplayOptions id koboMixedFetcher
        = GoMap.insert GoMap.empty "fixed-layout" "true"
    ∧ parseDisplayOptions id failDispFetcher = GoMap.empty := by
  refine ⟨fun doc h => ?_, fun e doc he hk => ?_, fun e e' he hk => ?_, rfl, rfl, rfl⟩
  · rw [parseDisplayOptions]
    simp only [h]
  · rw [parseDisplayOptions]
    simp only [he, hk]
  · rw [parseDisplayOptions]
    simp only [he, hk]

/-- Witness for C9: the Apple document wins although the Kobo path would
also resolve; the Kobo document is used when the Apple fetch fails; neither
resolving yields the empty map. -/
theorem display_options_resolution_witness :
    parseDisplayOptions id appleFirstFetcher
      = extractDisplayOptions id (some [{ name := "specified-fonts", value := "true" }])
    ∧ parseDisplayOptions id koboOnlyFetcher
      = extractDisplayOptions id (some [{ name := "fixed-layout", value := "true" }])
    ∧ parseDisplayOptions id failDispFetcher = GoMap.empty :=
  ⟨(display_options_resolution id appleFirstFetcher).1 _ rfl,
   (display_options_resolution id koboOnlyFetcher).2.1 "missing" _ rfl rfl,
   (display_options_resolution id failDispFetcher).2.2.1 "missing" "missing" rfl rfl⟩

/-- Retagging the cover leaves the href sequence unchanged. -/
theorem tagCover_map_href (l : List Link) :
    (tagCover l).map Link.href = l.map Link.href := by
  cases l <;> rfl

/-- Inversion: a successful image parse forces a non-empty filtered set and
pins the builder to the sorted, cover-tagged filtered links. -/
theorem imageParse_ok_inv (isHiddenOrThumbs isBitmap : String → Bool)
    (guessTitle assetMediaType assetName : String) (f : ImgFetcher)
    (links : List Link) (b : ImgBuilder)
    (hl : f.links = .ok links)
    (hp : ImageParser.Parse isHiddenOrThumbs isBitmap guessTitle assetMediaType
        assetName f = .ok (some b)) :
    (links.filter (keepLink isHiddenOrThumbs isBitmap)).length ≠ 0
    ∧ b = { manifest :=
              { context := [WebpubManifestContext]
                title := if guessTitle = "" then assetName else guessTitle
                conformsTo := [ProfileDivina]
                readingOrder :=
                  tagCover
                    ((links.filter
                        (keepLink isHiddenOrThumbs isBitmap)).insertionSort hrefLE) }
            fetcher := f } := by
  rw [ImageParser.Parse] at hp
  split at hp
  · exact absurd hp (by simp)
  · exact absurd hp (by simp)
  · simp only [hl] at hp
    split at hp
    · exact absurd hp (by simp)
    · simp only [Except.ok.injEq, Option.some.injEq] at hp
      constructor
      · assumption
      · exact hp.symm

/-- C3: the reading order of a successful image parse is exactly the
filtered links arranged in ascending lexicographic order of their href
strings (plain string order, no numeric awareness), with the first link
carrying the "cover" relation; on the archive {b.jpg, a.png, c.png} it is
exactly [a.png, b.jpg, c.png] with a.png tagged "cover". -/
theorem image_reading_order (isHiddenOrThumbs isBitmap : String → Bool)
    (guessTitle assetMediaType assetName : String) (f : ImgFetcher)
    (links : List Link) (b : ImgBuilder)
    (hl : f.links = .ok links)
    (hp : ImageParser.Parse isHiddenOrThumbs isBitmap guessTitle assetMediaType
        assetName f = .ok (some b)) :
    ((b.manifest.readingOrder.map Link.href).Sorted (· ≤ ·)
      ∧ (b.manifest.readingOrder.map Link.href).Perm
          ((links.filter (keepLink isHiddenOrThumbs isBitmap)).map Link.href)
      ∧ (∃ h t, b.manifest.readingOrder = h :: t ∧ h.rels = ["cover"]))
    ∧ ImageParser.Parse noHidden pngJpeg "" CBZ "book" threeBitmapFetcher
        = .ok (some threeBuilder) := by
  obtain ⟨hne, rfl⟩ := imageParse_ok_inv isHiddenOrThumbs isBitmap guessTitle
    assetMediaType assetName f links b hl hp
  refine ⟨⟨?_, ?_, ?_⟩, by decide⟩
  · rw [tagCover_map_href]
    have hs : ((links.filter (keepLink isHiddenOrThumbs isBitmap)).insertionSort
        hrefLE).Pairwise hrefLE :=
      List.sorted_insertionSort hrefLE (links.filter (keepLink isHiddenOrThumbs isBitmap))
    exact hs.map Link.href (fun a b h => (hrefLE_iff a b).mp h)
  · rw [tagCover_map_href]
    exact (List.perm_insertionSort hrefLE
      (links.filter (keepLink isHiddenOrThumbs isBitmap))).map Link.href
  · have hlen : ((links.filter (keepLink isHiddenOrThumbs isBitmap)).insertionSort
        hrefLE).length
        = (links.filter (keepLink isHiddenOrThumbs isBitmap)).length :=
      (List.perm_insertionSort hrefLE _).length_eq
    cases hS : (links.filter (keepLink isHiddenOrThumbs isBitmap)).insertionSort
        hrefLE with
    | nil =>
        rw [hS] at hlen
        exact absurd hlen.symm hne
    | cons h t =>
        exact ⟨{ h with rels := ["cover"] }, t, rfl, rfl⟩

/-- Witness for C3 on the three-bitmap archive. -/
theorem image_reading_order_witness :
    ((threeBuilder.manifest.readingOrder.map Link.href).Sorted (· ≤ ·)
      ∧ (threeBuilder.manifest.readingOrder.map Link.href).Perm
          (((threeBitmapFetcher.links.toOption.getD []).filter
              (keepLink noHidden pngJpeg)).map Link.href)
      ∧ (∃ h t, threeBuilder.manifest.readingOrder = h :: t ∧ h.rels = ["cover"]))
    ∧ ImageParser.Parse noHidden pngJpeg "" CBZ "book" threeBitmapFetcher
        = .ok (some threeBuilder) := by
  have H := image_reading_order noHidden pngJpeg "" CBZ "book" threeBitmapFetcher
    [{ href := "b.jpg", mediaType := "image/jpeg", title := "", rels := [] },
     { href := "a.png", mediaType := "image/png", title := "", rels := [] },
     { href := "c.png", mediaType := "image/png", title := "", rels := [] }]
    threeBuilder rfl (by decide)
  exact ⟨⟨H.1.1, H.1.2.1, H.1.2.2⟩, H.2⟩

/-- C7: acceptance for the image parser.  A CBZ or CBR declared media type
accepts unconditionally; otherwise acceptance holds exactly when every
archive resource that is neither hidden/system nor a bitmap has its
extension in the fixed allow-list {acbf, xml, txt, json}; a `.exe` next to
one bitmap yields the no-match result, not an error. -/
theorem image_acceptance (isHiddenOrThumbs isBitmap : String → Bool)
    (amt : String) (f : ImgFetcher) (links : List Link)
    (hl : f.links = .ok links) :
    (amt = CBZ ∨ amt = CBR →
        ImageParser.accepts isHiddenOrThumbs isBitmap amt f = .ok true)
    ∧ (¬(amt = CBZ ∨ amt = CBR) →
        (ImageParser.accepts isHiddenOrThumbs isBitmap amt f = .ok true
          ↔ ∀ l ∈ links,
              isHiddenOrThumbs l.href = true ∨ isBitmap l.mediaType = true
                ∨ extKey l.href ∈ allowed_extensions_image))
    ∧ (ImageParser.accepts noHidden pngJpeg "application/zip" exeFetcher = .ok false
        ∧ ImageParser.Parse noHidden pngJpeg "" "application/zip" "comic" exeFetcher
          = .ok none) := by
  refine ⟨fun h => ?_, fun h => ?_, by decide, by decide⟩
  · rw [ImageParser.accepts, if_pos h]
  · rw [ImageParser.accepts, if_neg h]
    simp only [hl]
    simp [List.all_eq_true, Bool.or_eq_true, or_assoc]

/-- Witness for C7: CBZ accepts the exe archive unconditionally, and for a
plain zip the acceptance test is the allow-list condition. -/
theorem image_acceptance_witness :
    ImageParser.accepts noHidden pngJpeg CBZ exeFetcher = .ok true
    ∧ (ImageParser.accepts noHidden pngJpeg "application/zip" xmlOnlyFetcher = .ok true
        ↔ ∀ l ∈ [({ href := "metadata.xml", mediaType := "text/xml", title := "",
                     rels := [] } : Link)],
            noHidden l.href = true ∨ pngJpeg l.mediaType = true
              ∨ extKey l.href ∈ allowed_extensions_image) :=
  ⟨(image_acceptance noHidden pngJpeg CBZ exeFetcher
      [{ href := "page1.png", mediaType := "image/png", title := "", rels := [] },
       { href := "evil.exe", mediaType := "application/octet-stream", title := "",
         rels := [] }] rfl).1 (Or.inl rfl),
   (image_acceptance noHidden pngJpeg "application/zip" xmlOnlyFetcher
      [{ href := "metadata.xml", mediaType := "text/xml", title := "", rels := [] }]
      rfl).2.1 (by decide)⟩

/-- C8: on an accepted input whose filtered resource set is empty, the image
assembler fails with the hard error "no bitmap found in the publication"
rather than returning a manifest; an archive holding only a `metadata.xml`
passes acceptance yet fails assembly with exactly that error. -/
theorem image_empty_is_error (isHiddenOrThumbs isBitmap : String → Bool)
    (guessTitle assetMediaType assetName : String) (f : ImgFetcher)
    (links : List Link)
    (hl : f.links = .ok links)
    (hacc : ImageParser.accepts isHiddenOrThumbs isBitmap assetMediaType f = .ok true)
    (hempty : links.filter (keepLink isHiddenOrThumbs isBitmap) = []) :
    ImageParser.Parse isHiddenOrThumbs isBitmap guessTitle assetMediaType assetName f
      = .error "no bitmap found in the publication"
    ∧ (ImageParser.accepts noHidden pngJpeg "application/zip" xmlOnlyFetcher = .ok true
      ∧ ImageParser.Parse noHidden pngJpeg "" "application/zip" "comic" xmlOnlyFetcher
        = .error "no bitmap found in the publication") := by
  refine ⟨?_, by decide, by decide⟩
  rw [ImageParser.Parse, hacc]
  simp [hl, hempty]

/-- Witness for C8 on the metadata-only archive. -/
theorem image_empty_is_error_witness :
    ImageParser.Parse noHidden pngJpeg "" "application/zip" "comic" xmlOnlyFetcher
      = .error "no bitmap found in the publication" :=
  (image_empty_is_error noHidden pngJpeg "" "application/zip" "comic" xmlOnlyFetcher
      [{ href := "metadata.xml", mediaType := "text/xml", title := "", rels := [] }]
      rfl (by decide) (by decide)).1

/-- C10: when the image assembler tags the cover, the first link of the
sorted order keeps all its fields except the relation list, which becomes
exactly ["cover"] (prior relations discarded), and the remaining links are
untouched; on `relsFetcher` the prior relations ["foo", "bar"] of a.png are
replaced while b.png keeps ["x"], its title and media type. -/
theorem cover_tag_frame (isHiddenOrThumbs isBitmap : String → Bool)
    (guessTitle assetMediaType assetName : String) (f : ImgFetcher)
    (links : List Link) (b : ImgBuilder)
    (hl : f.links = .ok links)
    (hp : ImageParser.Parse isHiddenOrThumbs isBitmap guessTitle assetMediaType
        assetName f = .ok (some b)) :
    (∃ h t, (links.filter (keepLink isHiddenOrThumbs isBitmap)).insertionSort hrefLE
          = h :: t
      ∧ b.manifest.readingOrder = { h with rels := ["cover"] } :: t)
    ∧ ImageParser.Parse noHidden pngJpeg "" CBZ "book" relsFetcher
        = .ok (some relsBuilder) := by
  obtain ⟨hne, rfl⟩ := imageParse_ok_inv isHiddenOrThumbs isBitmap guessTitle
    assetMediaType assetName f links b hl hp
  refine ⟨?_, by decide⟩
  cases hS : (links.filter (keepLink isHiddenOrThumbs isBitmap)).insertionSort
      hrefLE with
  | nil =>
      have hlen : ((links.filter (keepLink isHiddenOrThumbs isBitmap)).insertionSort
          hrefLE).length
          = (links.filter (keepLink isHiddenOrThumbs isBitmap)).length :=
        (List.perm_insertionSort hrefLE _).length_eq
      rw [hS] at hlen
      exact absurd hlen.symm hne
  | cons h t =>
      exact ⟨h, t, rfl, rfl⟩

/-- Witness for C10 on the pre-tagged archive. -/
theorem cover_tag_frame_witness :
    (∃ h t,
        (((relsFetcher.links.toOption.getD []).filter
            (keepLink noHidden pngJpeg)).insertionSort hrefLE) = h :: t
      ∧ relsBuilder.manifest.readingOrder = { h with rels := ["cover"] } :: t)
    ∧ ImageParser.Parse noHidden pngJpeg "" CBZ "book" relsFetcher
        = .ok (some relsBuilder) := by
  have H := cover_tag_frame noHidden pngJpeg "" CBZ "book" relsFetcher
    [{ href := "b.png", mediaType := "image/png", title := "U", rels := ["x"] },
     { href := "a.png", mediaType := "image/png", title := "T", rels := ["foo", "bar"] }]
    relsBuilder rfl (by decide)
  exact ⟨H.1, H.2⟩
